import Mathlib

/-!
Verification of the hierarchy-assignment core of StarBox (`starbox/celestial.py`).

The Python code is a mutable object graph.  We embed it shallowly as a heap
(`State`, a list of `Obj` records indexed by `ObjId`); object identity is the
heap index, attribute mutation is functional update of the heap.  Each Python
method of the core becomes a Lean function on `State`:

  * `systemF` / `systemS`  — `Body.system` (lines 69-73), `Star.system`
    (172-176), `System.system` (237-238), `Belt.system` (296-300),
    `Minor.system` (361-365).  The walk up the `parent` chain is given a fuel
    argument; fuel exhaustion (Python's `RecursionError` on a cyclic chain)
    is the `none` result of the outer `Option`.
  * `systemSubAssign` — `System.subAssign` (250-257).
  * `starSubAssign` — `Star.subAssign` (196-204).
  * `beltSubAssign` — `Belt.subAssign` (305-313); its body is letter for
    letter the same as `Star.subAssign` in the source.
  * `bodySubAssign` — `Body.subAssign` (75-83), inherited by `Planet`.
  * `minorSubAssign` — `Minor.subAssign` (367-375): the very first statement
    `self.append(childNew)` looks up an attribute `append` that no `Minor`
    instance has, so an `AttributeError` is raised before any mutation and
    swallowed by the `except` clause; the method is a total no-op.
  * `planetInit`, `starInit`, `systemInit`, `beltInit`, `minorInit` — the
    constructors.  All of them set `bodyRank` and `parent` before invoking
    `parent.subAssign(self)` inside `try/except AttributeError`.  `Belt`'s
    constructor alone then runs the `bodySubtype` dispatch block (289-294)
    OUTSIDE any `try`, and that block reads `self.parent.bodyType`; it
    therefore raises an uncaught `AttributeError` whenever the parent is
    `None` or lacks a `bodyType` attribute (a `Minor`).  `beltInit` hence
    returns an `Option`, `none` being the propagated exception.

`Kind` covers the five concrete classes that carry a `subAssign` method;
`GiantPlanet`/`DwarfPlanet` behave as `Planet` and `BlackHole` as `Star`
(they override no method of the core and keep `bodyType` `"Planet"` resp.
`"Star"`).  The class attribute `bodyType` does not exist on `Minor`, which
is why `bodyTypeAttr` is partial in the mathematical sense (an `Option`):
reading it on a `Minor` raises `AttributeError` in Python.
-/

/-- Heap index standing for a Python object reference. -/
abbrev ObjId := Nat

/-- The five concrete classes of the assignment core. -/
inductive Kind where
  | planet
  | star
  | system
  | belt
  | minor
deriving DecidableEq, Repr

/-- Class attribute `bodyType`; `Minor` does not define it, so looking it up
raises `AttributeError` (modelled as `none`). -/
def bodyTypeAttr : Kind → Option String
  | Kind.planet => some "Planet"
  | Kind.star => some "Star"
  | Kind.system => some "System"
  | Kind.belt => some "Belt"
  | Kind.minor => none

/-- One Python object of the core, restricted to the attributes the
assignment algorithm reads or writes: `bodyRank`, `parent`, the child lists
`orbitals` (Star/Belt/Body) and `heads`/`bodies` (System), and Belt's
instance-level `bodySubtype`. -/
structure Obj where
  kind : Kind
  name : String
  parent : Option ObjId
  bodyRank : Int
  orbitals : List ObjId
  heads : List ObjId
  bodies : List ObjId
  bodySubtype : Option String
deriving DecidableEq, Repr

/-- The heap: every constructed object, in allocation order. -/
structure State where
  objs : List Obj
deriving DecidableEq, Repr

/-- Dereference an object id (attribute access on a live object). -/
def State.get (s : State) (i : ObjId) : Option Obj := s.objs[i]?

/-- Write back a mutated object. -/
def State.set (s : State) (i : ObjId) (o : Obj) : State := ⟨s.objs.set i o⟩

/-- Allocate a fresh object, returning the new heap and the new reference. -/
def State.alloc (s : State) (o : Obj) : State × ObjId :=
  (⟨s.objs ++ [o]⟩, s.objs.length)

/-- Fresh object as the constructors build it before `subAssign` runs:
empty child lists, the given `parent` and `bodyRank`.  `bodySubtype` starts
as the class attribute (`"Planet"`, `"Star"`, `"System"`; `Belt` and `Minor`
define none at class level). -/
def newObj (k : Kind) (name : String) (parent : Option ObjId) (rank : Int) : Obj :=
  { kind := k
    name := name
    parent := parent
    bodyRank := rank
    orbitals := []
    heads := []
    bodies := []
    bodySubtype := match k with
      | Kind.planet => some "Planet"
      | Kind.star => some "Star"
      | Kind.system => some "System"
      | Kind.belt => none
      | Kind.minor => none }

/-- The `system()` method (value view).  Source, `Body.system` (69-73):
`try: return self.parent.system() except AttributeError: return None`;
`System.system` (237-238): `return self`.  `Star`, `Belt` and `Minor`
repeat `Body`'s text verbatim.  Walking stops at the first `System` on the
chain; a chain ending without a `System` yields Python `None`
(`some none`); running out of fuel (`RecursionError` on a cyclic chain)
yields `none`. -/
def systemF (s : State) : Nat → ObjId → Option (Option ObjId)
  | 0, _ => none
  | fuel + 1, i =>
    match s.get i with
    | none => some none
    | some o =>
      if o.kind = Kind.system then some (some i)
      else
        match o.parent with
        | none => some none
        | some p => systemF s fuel p

/-- The `system()` method, state-threading view: the same recursion, carrying
the heap through every call exactly as the interpreter does.  The source
performs no assignment anywhere in `system`, so every branch returns the
incoming heap. -/
def systemS : State → Nat → ObjId → Option (Option ObjId) × State
  | s, 0, _ => (none, s)
  | s, fuel + 1, i =>
    match s.get i with
    | none => (some none, s)
    | some o =>
      if o.kind = Kind.system then (some (some i), s)
      else
        match o.parent with
        | none => (some none, s)
        | some p => systemS s fuel p

/-- The method `System.subAssign` (250-257): compare `childNew.bodyRank` with
`self.bodyRank`; strictly greater appends to `bodies`, equal appends to
`heads`, smaller falls through both branches (no-op).  Nothing else is
touched: neither `childNew.parent` nor `childNew.bodyRank` is assigned. -/
def systemSubAssign (s : State) (i c : ObjId) : State :=
  match s.get i, s.get c with
  | some o, some co =>
    if co.bodyRank > o.bodyRank then
      s.set i { o with bodies := o.bodies ++ [c] }
    else if co.bodyRank = o.bodyRank then
      s.set i { o with heads := o.heads ++ [c] }
    else s
  | _, _ => s

/-- The method `Star.subAssign` (196-204): append to `orbitals`, set
`childNew.parent = self`, set `childNew.bodyRank = self.bodyRank + 1`, then
`if self.parent.bodyType == "System": self.parent.subAssign(childNew)`.
When `self.parent` is `None` or has no `bodyType` (a `Minor`), the condition
raises `AttributeError`, caught by the `except` clause AFTER the three
mutations have happened; when the parent's `bodyType` is any other string
the condition is simply false.  Either way no forwarding occurs and the
mutated heap stands. -/
def starSubAssign (s : State) (i c : ObjId) : State :=
  match s.get i with
  | none => s
  | some o =>
    let s1 := s.set i { o with orbitals := o.orbitals ++ [c] }
    match s1.get c with
    | none => s1
    | some co =>
      let s2 := s1.set c { co with parent := some i }
      match s2.get i, s2.get c with
      | some o2, some co2 =>
        let s3 := s2.set c { co2 with bodyRank := o2.bodyRank + 1 }
        match (s3.get i).bind Obj.parent with
        | none => s3
        | some p =>
          match (s3.get p).map Obj.kind with
          | some Kind.system => systemSubAssign s3 p c
          | _ => s3
      | _, _ => s1

/-- The method `Belt.subAssign` (305-313): its body is textually identical to
`Star.subAssign` (196-204), so the same heap transformer models it. -/
def beltSubAssign (s : State) (i c : ObjId) : State := starSubAssign s i c

/-- The method `Body.subAssign` (75-83), inherited by `Planet` and its
subclasses: append to `orbitals`, set `childNew.parent = self`, set
`childNew.bodyRank = self.bodyRank + 1`, then
`if self.system() != None: self.system().subAssign(childNew)`.  The value
returned by `system()` is always a `System` object or `None`, so the
forwarded call is `System.subAssign`.  Fuel exhaustion in `system()` leaves
the three mutations in place (the heap at the moment `RecursionError`
escapes). -/
def bodySubAssign (s : State) (fuel : Nat) (i c : ObjId) : State :=
  match s.get i with
  | none => s
  | some o =>
    let s1 := s.set i { o with orbitals := o.orbitals ++ [c] }
    match s1.get c with
    | none => s1
    | some co =>
      let s2 := s1.set c { co with parent := some i }
      match s2.get i, s2.get c with
      | some o2, some co2 =>
        let s3 := s2.set c { co2 with bodyRank := o2.bodyRank + 1 }
        match systemF s3 fuel i with
        | some (some p) => systemSubAssign s3 p c
        | _ => s3
      | _, _ => s1

/-- The method `Minor.subAssign` (367-375): the first statement
`self.append(childNew)` fails the attribute lookup (no `Minor` has an
`append` attribute) before performing any call, the `AttributeError` is
caught, and the method returns with the heap untouched. -/
def minorSubAssign (s : State) (_i _c : ObjId) : State := s

/-- Dynamic dispatch of `parent.subAssign(child)` on the receiver's class. -/
def subAssign (s : State) (fuel : Nat) (i c : ObjId) : State :=
  match (s.get i).map Obj.kind with
  | some Kind.system => systemSubAssign s i c
  | some Kind.star => starSubAssign s i c
  | some Kind.belt => beltSubAssign s i c
  | some Kind.planet => bodySubAssign s fuel i c
  | some Kind.minor => minorSubAssign s i c
  | none => s

/-- Shared tail of every constructor: `try: self.parent.subAssign(self)
except AttributeError: pass`.  A `None` parent raises on the attribute
lookup and is swallowed; otherwise the parent's `subAssign` runs (all five
classes have one and each swallows its own internal `AttributeError`s). -/
def initAssign (s : State) (fuel : Nat) (parent : Option ObjId) (i : ObjId) : State :=
  match parent with
  | none => s
  | some p => subAssign s fuel p i

/-- Constructor `Planet.__init__` (100-122): sets `self.parent = parent`,
`self.bodyRank = 3`, then tries `self.parent.subAssign(self)`. -/
def planetInit (s : State) (fuel : Nat) (name : String) (parent : Option ObjId) :
    State × ObjId :=
  let a := s.alloc (newObj Kind.planet name parent 3)
  (initAssign a.1 fuel parent a.2, a.2)

/-- Constructor `Star.__init__` (155-170): sets `self.parent = parent`,
`self.bodyRank = 2`, then tries `self.parent.subAssign(self)`. -/
def starInit (s : State) (fuel : Nat) (name : String) (parent : Option ObjId) :
    State × ObjId :=
  let a := s.alloc (newObj Kind.star name parent 2)
  (initAssign a.1 fuel parent a.2, a.2)

/-- Constructor `System.__init__` (218-235): sets `self.parent = parent`,
`self.bodyRank = rank` (default 2), then tries `self.parent.subAssign(self)`. -/
def systemInit (s : State) (fuel : Nat) (name : String) (parent : Option ObjId)
    (rank : Int := 2) : State × ObjId :=
  let a := s.alloc (newObj Kind.system name parent rank)
  (initAssign a.1 fuel parent a.2, a.2)

/-- Constructor `Minor.__init__` (334-359): sets `self.parent = parent`,
`self.bodyRank = 4`, then tries `self.parent.subAssign(self)`. -/
def minorInit (s : State) (fuel : Nat) (name : String) (parent : Option ObjId) :
    State × ObjId :=
  let a := s.alloc (newObj Kind.minor name parent 4)
  (initAssign a.1 fuel parent a.2, a.2)

/-- Constructor `Belt.__init__` (272-294): sets `self.parent = parent`,
`self.bodyRank = rank` (default 3), tries `self.parent.subAssign(self)`, and
then — outside any `try` — dispatches `self.bodySubtype` on
`self.parent.bodyType` (289-294).  That read raises an uncaught
`AttributeError` when `self.parent` is `None` or is a `Minor` (no `bodyType`
attribute): the constructor propagates the exception, modelled as `none`. -/
def beltInit (s : State) (fuel : Nat) (name : String) (parent : Option ObjId)
    (rank : Int := 3) : Option (State × ObjId) :=
  let a := s.alloc (newObj Kind.belt name parent rank)
  let s2 := initAssign a.1 fuel parent a.2
  match (s2.get a.2).bind Obj.parent with
  | none => none
  | some p =>
    match (s2.get p).map Obj.kind with
    | none => none
    | some k =>
      match bodyTypeAttr k with
      | none => none
      | some bt =>
        let st := if bt = "Star" then "Belt" else if bt = "Planet" then "Ring" else "Cloud"
        match s2.get a.2 with
        | none => none
        | some ob => some (s2.set a.2 { ob with bodySubtype := some st }, a.2)

/-! Concrete heaps, built only through the constructors, used to witness the
theorems below and to exhibit counterexamples.  Ids are allocation order. -/

/-- `System("Sol")`: one root System, rank 2, id 0. -/
def solState : State := (systemInit ⟨[]⟩ 9 "Sol" none).1

/-- `Star("Sun", Sol)`: id 1, accepted into `Sol.heads`. -/
def solSunState : State := (starInit solState 9 "Sun" (some 0)).1

/-- `Planet("Earth", Sun)`: id 2, in `Sun.orbitals` and forwarded into
`Sol.bodies`. -/
def sunEarthState : State := (planetInit solSunState 9 "Earth" (some 1)).1

/-- `Minor("Luna")`: id 3, a rogue minor body with no parent. -/
def moonState : State := (minorInit sunEarthState 9 "Luna" none).1

/-- `Belt("Frost", Sun)`: id 2, in `Sun.orbitals`, forwarded into
`Sol.bodies` because the Star's immediate parent is the System. -/
def beltUnderStarState : State :=
  ((beltInit solSunState 9 "Frost" (some 1)).getD (⟨[]⟩, 0)).1

/-- `Minor("Pallas", Frost)`: id 3, accepted by the Belt that sits under the
Star. -/
def c2finalState : State := (minorInit beltUnderStarState 9 "Pallas" (some 2)).1

/-- `Belt("Main", Sol)`: id 1, a Belt whose immediate parent is the System
itself. -/
def beltUnderSystemState : State :=
  ((beltInit solState 9 "Main" (some 0)).getD (⟨[]⟩, 0)).1

/-- `Minor("Vesta", Main)`: id 2, accepted by the Belt that sits directly
under the System. -/
def c5finalState : State := (minorInit beltUnderSystemState 9 "Vesta" (some 1)).1

/-- `System("Deep", rank=4)` then `Star("a", Deep)`: the Star's rank 2 is
below the System's rank 4, so the Star lands in neither `heads` nor
`bodies`, but its `parent` is still the System. -/
def rank4State : State := (starInit (systemInit ⟨[]⟩ 9 "Deep" none 4).1 9 "a" (some 0)).1

/-- `Planet("p", a)` under the rank-4 System's Star. -/
def rank4FinalState : State := (planetInit rank4State 9 "p" (some 1)).1

/-- `System("A")`, `System("Bb", A, rank=3)`, `Planet("p", Bb)`: a System
nested inside another System, with a Planet below the inner one. -/
def nestedSysState : State :=
  (planetInit (systemInit (systemInit ⟨[]⟩ 9 "A" none).1 9 "Bb" (some 0) 3).1 9 "p" (some 1)).1

/-- `Belt("M", System("X", rank=4))`: a Belt (id 1, rank 3) whose immediate
parent is a System of rank equal to the Belt's rank plus one; a Minor
forwarded through this Belt joins `heads`, not `bodies`. -/
def beltUnderRank4State : State :=
  ((beltInit (systemInit ⟨[]⟩ 9 "X" none 4).1 9 "M" (some 0) 3).getD (⟨[]⟩, 0)).1

/-- Both-mutations heap of `Star.subAssign`/`Belt.subAssign`/`Body.subAssign`
before any forwarding: the child is appended to the container's `orbitals`,
and the child's `parent` and `bodyRank` are overwritten.  (The two updates of
the child collapse into one heap write; valid whenever container and child
are distinct objects.) -/
def assignMut (s : State) (i c : ObjId) (o co : Obj) : State :=
  (s.set i { o with orbitals := o.orbitals ++ [c] }).set c
    { co with parent := some i, bodyRank := o.bodyRank + 1 }

theorem State.get_some_lt {s : State} {i : ObjId} {o : Obj} (h : s.get i = some o) :
    i < s.objs.length := by
  by_contra hlt
  rw [State.get, List.getElem?_eq_none (Nat.le_of_not_lt hlt)] at h
  exact Option.noConfusion h

theorem State.get_set_self {s : State} {i : ObjId} (h : i < s.objs.length) (o : Obj) :
    (s.set i o).get i = some o := by
  simp [State.get, State.set, List.getElem?_set_eq_of_lt o h]

theorem State.get_set_ne {s : State} {i j : ObjId} (h : i ≠ j) (o : Obj) :
    (s.set i o).get j = s.get j := by
  simp [State.get, State.set, List.getElem?_set_ne h]

theorem State.length_set (s : State) (i : ObjId) (o : Obj) :
    (s.set i o).objs.length = s.objs.length := by
  simp [State.set]

theorem State.set_set (s : State) (i : ObjId) (o o' : Obj) :
    (s.set i o).set i o' = s.set i o' := by
  simp [State.set, List.set_set]

theorem State.get_alloc_self (s : State) (o : Obj) :
    (s.alloc o).1.get (s.alloc o).2 = some o := by
  simp [State.get, State.alloc, List.getElem?_concat_length]

theorem State.get_alloc_lt {s : State} {j : ObjId} (h : j < s.objs.length) (o : Obj) :
    (s.alloc o).1.get j = s.get j := by
  simp [State.get, State.alloc, List.getElem?_append_left h]

/-- Frame property of `System.subAssign`: whichever branch is taken, the only
attributes ever written are the System's own `heads`/`bodies` lists; every
object's `kind`, `parent`, `bodyRank`, `orbitals` and `bodySubtype` are left
as they were. -/
theorem systemSubAssign_frame (s : State) (i c j : ObjId) :
    ((systemSubAssign s i c).get j).map Obj.kind = (s.get j).map Obj.kind ∧
    ((systemSubAssign s i c).get j).map Obj.parent = (s.get j).map Obj.parent ∧
    ((systemSubAssign s i c).get j).map Obj.bodyRank = (s.get j).map Obj.bodyRank ∧
    ((systemSubAssign s i c).get j).map Obj.orbitals = (s.get j).map Obj.orbitals ∧
    ((systemSubAssign s i c).get j).map Obj.bodySubtype = (s.get j).map Obj.bodySubtype := by
  unfold systemSubAssign
  split
  · rename_i o co hio hic
    split_ifs with h1 h2
    · by_cases hj : i = j
      · subst hj
        rw [State.get_set_self (State.get_some_lt hio), hio]
        simp
      · rw [State.get_set_ne hj]
        exact ⟨rfl, rfl, rfl, rfl, rfl⟩
    · by_cases hj : i = j
      · subst hj
        rw [State.get_set_self (State.get_some_lt hio), hio]
        simp
      · rw [State.get_set_ne hj]
        exact ⟨rfl, rfl, rfl, rfl, rfl⟩
    · exact ⟨rfl, rfl, rfl, rfl, rfl⟩
  · exact ⟨rfl, rfl, rfl, rfl, rfl⟩

/-- A child distinct from the receiving System is untouched as a whole
object by `System.subAssign`. -/
theorem systemSubAssign_child_frame (s : State) (i c : ObjId) (h : i ≠ c) :
    (systemSubAssign s i c).get c = s.get c := by
  unfold systemSubAssign
  split
  · rename_i o co hio hic
    split_ifs with h1 h2
    · rw [State.get_set_ne h]
    · rw [State.get_set_ne h]
    · rfl
  · rfl

theorem State.get_set_of_get {s : State} {j : ObjId} {a : Obj} (h : s.get j = some a)
    (o : Obj) : (s.set j o).get j = some o :=
  State.get_set_self (State.get_some_lt h) o

/-- Unfolded form of `Star.subAssign` (and hence `Belt.subAssign`) for a
child distinct from the container: the three mutations of `assignMut`
happen unconditionally, then the child is forwarded to the container's
immediate parent exactly when that parent exists and its `bodyType` is
`"System"`; in every other case (no parent, parent without `bodyType`,
parent of any other class) the heap after the three mutations stands. -/
theorem starSubAssign_char (s : State) (i c : ObjId) (o co : Obj)
    (hi : s.get i = some o) (hc : s.get c = some co) (hic : i ≠ c) :
    starSubAssign s i c =
      match o.parent with
      | none => assignMut s i c o co
      | some p =>
        match ((assignMut s i c o co).get p).map Obj.kind with
        | some Kind.system => systemSubAssign (assignMut s i c o co) p c
        | _ => assignMut s i c o co := by
  have hli : i < s.objs.length := State.get_some_lt hi
  have hci : c ≠ i := Ne.symm hic
  have hXc : (s.set i { o with orbitals := o.orbitals ++ [c] }).get c = some co := by
    rw [State.get_set_ne hic]; exact hc
  unfold starSubAssign
  simp only [hi, State.get_set_ne hic, hc, State.get_set_ne hci, State.get_set_self hli,
    State.get_set_of_get hXc, State.set_set, Option.some_bind, assignMut]

/-- Unfolded form of `Body.subAssign` (inherited by `Planet`) for a child
distinct from the container: the three mutations of `assignMut` happen
unconditionally, then the child is forwarded to the System found by
`self.system()` over the WHOLE ancestor chain whenever that lookup finds
one. -/
theorem bodySubAssign_char (s : State) (fuel : Nat) (i c : ObjId) (o co : Obj)
    (hi : s.get i = some o) (hc : s.get c = some co) (hic : i ≠ c) :
    bodySubAssign s fuel i c =
      match systemF (assignMut s i c o co) fuel i with
      | some (some p) => systemSubAssign (assignMut s i c o co) p c
      | _ => assignMut s i c o co := by
  have hli : i < s.objs.length := State.get_some_lt hi
  have hci : c ≠ i := Ne.symm hic
  have hXc : (s.set i { o with orbitals := o.orbitals ++ [c] }).get c = some co := by
    rw [State.get_set_ne hic]; exact hc
  unfold bodySubAssign
  simp only [hi, State.get_set_ne hic, hc, State.get_set_ne hci, State.get_set_self hli,
    State.get_set_of_get hXc, State.set_set, assignMut]

theorem assignMut_get_i {s : State} {i : ObjId} (c : ObjId) (o co : Obj)
    (hli : i < s.objs.length) (hic : i ≠ c) :
    (assignMut s i c o co).get i = some { o with orbitals := o.orbitals ++ [c] } := by
  unfold assignMut
  rw [State.get_set_ne (Ne.symm hic), State.get_set_self hli]

theorem assignMut_get_c {s : State} {c : ObjId} (i : ObjId) (o co : Obj)
    (hlc : c < s.objs.length) :
    (assignMut s i c o co).get c
      = some { co with parent := some i, bodyRank := o.bodyRank + 1 } := by
  unfold assignMut
  refine State.get_set_self ?_ _
  rw [State.length_set]; exact hlc

theorem assignMut_get_other {s : State} {i c j : ObjId} (o co : Obj)
    (hji : j ≠ i) (hjc : j ≠ c) :
    (assignMut s i c o co).get j = s.get j := by
  unfold assignMut
  rw [State.get_set_ne (Ne.symm hjc), State.get_set_ne (Ne.symm hji)]

theorem systemF_system (s : State) (fuel : Nat) (i : ObjId) (o : Obj)
    (hi : s.get i = some o) (hk : o.kind = Kind.system) :
    systemF s (fuel + 1) i = some (some i) := by
  unfold systemF; rw [hi]; simp [hk]

theorem systemF_step (s : State) (fuel : Nat) (i p : ObjId) (o : Obj)
    (hi : s.get i = some o) (hk : o.kind ≠ Kind.system) (hp : o.parent = some p) :
    systemF s (fuel + 1) i = systemF s fuel p := by
  conv_lhs => unfold systemF
  rw [hi]; simp [hk, hp]

theorem systemF_root (s : State) (fuel : Nat) (i : ObjId) (o : Obj)
    (hi : s.get i = some o) (hk : o.kind ≠ Kind.system) (hp : o.parent = none) :
    systemF s (fuel + 1) i = some none := by
  unfold systemF; rw [hi]; simp [hk, hp]

/-- Soundness of the ancestor walk: whenever `system()` returns an object at
all, that object's class is `System`. -/
theorem systemF_kind (s : State) :
    ∀ (fuel : Nat) (i p : ObjId), systemF s fuel i = some (some p) →
      (s.get p).map Obj.kind = some Kind.system := by
  intro fuel
  induction fuel with
  | zero =>
    intro i p h
    exact Option.noConfusion h
  | succ n ih =>
    intro i p h
    unfold systemF at h
    cases hi : s.get i with
    | none =>
      rw [hi] at h
      exact Option.noConfusion (Option.some.inj h)
    | some o =>
      rw [hi] at h
      by_cases hk : o.kind = Kind.system
      · simp only [hk, if_true] at h
        have hip : i = p := Option.some.inj (Option.some.inj h)
        subst hip
        rw [hi]; simp [hk]
      · simp only [hk, if_false] at h
        cases hp : o.parent with
        | none =>
          rw [hp] at h
          exact Option.noConfusion (Option.some.inj h)
        | some q =>
          rw [hp] at h
          exact ih q p h

/-- The state-threading view of `system()` returns the incoming heap in every
branch: the method body contains no assignment. -/
theorem systemS_state (s : State) :
    ∀ (fuel : Nat) (i : ObjId), (systemS s fuel i).2 = s := by
  intro fuel
  induction fuel with
  | zero => intro i; rfl
  | succ n ih =>
    intro i
    unfold systemS
    cases hi : s.get i with
    | none => rfl
    | some o =>
      by_cases hk : o.kind = Kind.system
      · simp [hk]
      · simp only [hk, if_false]
        cases hp : o.parent with
        | none => rfl
        | some q => exact ih q

/-- The two views of `system()` agree on the returned value. -/
theorem systemS_fst (s : State) :
    ∀ (fuel : Nat) (i : ObjId), (systemS s fuel i).1 = systemF s fuel i := by
  intro fuel
  induction fuel with
  | zero => intro i; rfl
  | succ n ih =>
    intro i
    unfold systemS systemF
    cases hi : s.get i with
    | none => rfl
    | some o =>
      by_cases hk : o.kind = Kind.system
      · simp [hk]
      · simp only [hk, if_false]
        cases hp : o.parent with
        | none => rfl
        | some q => exact ih q

/-- C1: for every System `S` and child `c` of `S.subAssign`: equal rank
appends `c` to `S.heads`, greater rank appends `c` to `S.bodies`, smaller
rank leaves the heap untouched, and in every case `c`'s `bodyRank` is
unchanged. -/
theorem C1_system_subAssign_rank_split (s : State) (i c : ObjId) (o co : Obj)
    (hi : s.get i = some o) (_hk : o.kind = Kind.system) (hc : s.get c = some co) :
    (co.bodyRank = o.bodyRank →
      systemSubAssign s i c = s.set i { o with heads := o.heads ++ [c] }) ∧
    (co.bodyRank > o.bodyRank →
      systemSubAssign s i c = s.set i { o with bodies := o.bodies ++ [c] }) ∧
    (co.bodyRank < o.bodyRank → systemSubAssign s i c = s) ∧
    ((systemSubAssign s i c).get c).map Obj.bodyRank = (s.get c).map Obj.bodyRank := by
  refine ⟨?_, ?_, ?_, (systemSubAssign_frame s i c c).2.2.1⟩
  · intro h
    unfold systemSubAssign
    simp only [hi, hc]
    rw [if_neg (by omega), if_pos h]
  · intro h
    unfold systemSubAssign
    simp only [hi, hc]
    rw [if_pos h]
  · intro h
    unfold systemSubAssign
    simp only [hi, hc]
    rw [if_neg (by omega), if_neg (by omega)]

/-- Witness for C1 at `Sol`/`Sun`: the equal-rank branch appends to `heads`
and the child's rank is untouched. -/
theorem C1_witness :
    ((systemSubAssign solSunState 0 1).get 0).map Obj.heads = some [1, 1] ∧
    ((systemSubAssign solSunState 0 1).get 1).map Obj.bodyRank
      = (solSunState.get 1).map Obj.bodyRank := by
  have h := C1_system_subAssign_rank_split solSunState 0 1 _ _ rfl rfl rfl
  refine ⟨?_, h.2.2.2⟩
  rw [h.1 rfl]
  rfl

/-- C3: a Star constructed with a default-rank (2) System as parent ends the
construction with `bodyRank` 2 (equal to the System's rank, which is also
unchanged), and it lands in the System's `heads`, not in its `bodies`:
`Star.__init__` sets `self.bodyRank = 2` before calling
`self.parent.subAssign(self)`, so the equal-rank branch of
`System.subAssign` fires. -/
theorem C3_star_into_default_system (s : State) (fuel : Nat) (name : String)
    (p : ObjId) (po : Obj) (hp : s.get p = some po) (hk : po.kind = Kind.system)
    (hr : po.bodyRank = 2) (hfresh : s.objs.length ∉ po.bodies) :
    ((starInit s fuel name (some p)).1.get (starInit s fuel name (some p)).2).map Obj.bodyRank
      = some 2 ∧
    ((starInit s fuel name (some p)).1.get p).map Obj.bodyRank = some 2 ∧
    ∃ po2, (starInit s fuel name (some p)).1.get p = some po2 ∧
      po2.heads = po.heads ++ [(starInit s fuel name (some p)).2] ∧
      po2.bodies = po.bodies ∧
      (starInit s fuel name (some p)).2 ∈ po2.heads ∧
      (starInit s fuel name (some p)).2 ∉ po2.bodies := by
  have hlp : p < s.objs.length := State.get_some_lt hp
  have hpi : p ≠ s.objs.length := Nat.ne_of_lt hlp
  have hred : starInit s fuel name (some p)
      = (subAssign (s.alloc (newObj Kind.star name (some p) 2)).1 fuel p s.objs.length,
         s.objs.length) := rfl
  rw [hred]
  have hap : (s.alloc (newObj Kind.star name (some p) 2)).1.get p = some po := by
    rw [State.get_alloc_lt hlp]; exact hp
  have hai : (s.alloc (newObj Kind.star name (some p) 2)).1.get s.objs.length
      = some (newObj Kind.star name (some p) 2) := State.get_alloc_self s _
  have hdisp : subAssign (s.alloc (newObj Kind.star name (some p) 2)).1 fuel p s.objs.length
      = systemSubAssign (s.alloc (newObj Kind.star name (some p) 2)).1 p s.objs.length := by
    unfold subAssign
    rw [hap]
    simp [hk]
  have hsys : systemSubAssign (s.alloc (newObj Kind.star name (some p) 2)).1 p s.objs.length
      = (s.alloc (newObj Kind.star name (some p) 2)).1.set p
          { po with heads := po.heads ++ [s.objs.length] } := by
    unfold systemSubAssign
    simp only [hap, hai]
    rw [if_neg (by simp [newObj, hr]), if_pos (by simp [newObj, hr])]
  rw [hdisp, hsys]
  have hgp : ((s.alloc (newObj Kind.star name (some p) 2)).1.set p
      { po with heads := po.heads ++ [s.objs.length] }).get p
      = some { po with heads := po.heads ++ [s.objs.length] } :=
    State.get_set_of_get hap _
  have hgi : ((s.alloc (newObj Kind.star name (some p) 2)).1.set p
      { po with heads := po.heads ++ [s.objs.length] }).get s.objs.length
      = some (newObj Kind.star name (some p) 2) := by
    rw [State.get_set_ne hpi]; exact hai
  refine ⟨by rw [hgi]; rfl, by rw [hgp]; simp [hr], ?_⟩
  refine ⟨_, hgp, rfl, rfl, ?_, hfresh⟩
  simp

/-- Witness for C3 at `System("Sol")` receiving `Star("Sun", Sol)`. -/
theorem C3_witness :
    ((starInit solState 9 "Sun" (some 0)).1.get (starInit solState 9 "Sun" (some 0)).2).map
        Obj.bodyRank = some 2 ∧
    ((starInit solState 9 "Sun" (some 0)).1.get 0).map Obj.bodyRank = some 2 := by
  have h := C3_star_into_default_system solState 9 "Sun" 0 _ rfl rfl rfl (by decide)
  exact ⟨h.1, h.2.1⟩

/-- C8 (code bug per the spec's stated intent): `Belt.__init__` is NOT
exception-free.  Its `bodySubtype` dispatch (lines 289-294) sits outside the
`try/except AttributeError`, so `Belt("B")` with the default `parent=None`,
and a `Belt` whose parent is a `Minor` (a class without `bodyType`), raise
an uncaught `AttributeError`, contradicting the claim that every core
constructor degrades to a silent no-op. -/
theorem C8_belt_ctor_raises :
    beltInit ⟨[]⟩ 9 "B" none = none ∧
    beltInit (minorInit ⟨[]⟩ 9 "m" none).1 9 "B" (some 0) = none := ⟨rfl, rfl⟩

/-- C9: `system()` is side-effect-free and idempotent: the threaded heap
comes back unchanged, repeating the call on the resulting heap gives the
same answer, the value agrees with the pure reading, and re-applying
`system()` to the object it returns is a fixed point. -/
theorem C9_system_pure (s : State) (fuel : Nat) (i : ObjId) :
    (systemS s fuel i).2 = s ∧
    systemS (systemS s fuel i).2 fuel i = systemS s fuel i ∧
    (systemS s fuel i).1 = systemF s fuel i ∧
    (∀ r, (systemS s fuel i).1 = some (some r) →
      ∀ f2, systemS s (f2 + 1) r = (some (some r), s)) := by
  refine ⟨systemS_state s fuel i, by rw [systemS_state], systemS_fst s fuel i, ?_⟩
  intro r hr f2
  have hsf : systemF s fuel i = some (some r) := by rw [← systemS_fst]; exact hr
  have hk := systemF_kind s fuel i r hsf
  obtain ⟨o, ho, hko⟩ := Option.map_eq_some'.mp hk
  unfold systemS
  rw [ho]
  simp [hko]

/-- Witness for C9 on the `Sol`/`Sun` heap, from the `Sun` node. -/
theorem C9_witness :
    systemS (systemS solSunState 3 1).2 3 1 = systemS solSunState 3 1 ∧
    systemS solSunState 4 0 = (some (some 0), solSunState) := by
  have h := C9_system_pure solSunState 3 1
  exact ⟨h.2.1, h.2.2.2 0 rfl 3⟩

/-- C7 (amended): `system()` on a System returns that System itself; on any
other node it returns whatever its parent's `system()` returns — i.e. the
NEAREST System on the ancestor chain, not necessarily the topmost (root)
one — so every descendant reached through non-System intermediates yields
the same System; and it returns None when the chain ends without meeting a
System.  Whenever it returns an object, that object is a System. -/
theorem C7_system_lookup (s : State) (fuel : Nat) (i : ObjId) (o : Obj)
    (hi : s.get i = some o) :
    (o.kind = Kind.system → systemF s (fuel + 1) i = some (some i)) ∧
    (o.kind ≠ Kind.system → ∀ p, o.parent = some p →
      systemF s (fuel + 1) i = systemF s fuel p) ∧
    (o.kind ≠ Kind.system → o.parent = none → systemF s (fuel + 1) i = some none) ∧
    (∀ r, systemF s (fuel + 1) i = some (some r) →
      (s.get r).map Obj.kind = some Kind.system) :=
  ⟨fun hk => systemF_system s fuel i o hi hk,
   fun hk p hp => systemF_step s fuel i p o hi hk hp,
   fun hk hp => systemF_root s fuel i o hi hk hp,
   fun r h => systemF_kind s (fuel + 1) i r h⟩

/-- Counterexample to C7 as stated: in `nestedSysState`, node 2 (a Planet)
is a descendant of the root System 0 (its parent chain is 2 → 1 → 0, and 0
is a parentless System), but `system()` from node 2 returns the NESTED
System 1, not the same unique root System 0; System 1, itself a descendant
of System 0, likewise returns itself. -/
theorem C7_counterexample :
    (nestedSysState.get 0).map Obj.kind = some Kind.system ∧
    (nestedSysState.get 0).map Obj.parent = some none ∧
    (nestedSysState.get 1).map Obj.kind = some Kind.system ∧
    (nestedSysState.get 1).map Obj.parent = some (some 0) ∧
    (nestedSysState.get 2).map Obj.parent = some (some 1) ∧
    systemF nestedSysState 9 2 = some (some 1) ∧
    systemF nestedSysState 9 1 = some (some 1) ∧
    (1 : ObjId) ≠ 0 :=
  ⟨rfl, rfl, rfl, rfl, rfl, rfl, rfl, by decide⟩

/-- Witness for C7 on the `Sol`/`Sun` heap: the non-System step and the
System self-return. -/
theorem C7_witness :
    systemF solSunState 2 1 = systemF solSunState 1 0 ∧
    systemF solSunState 2 0 = some (some 0) := by
  have h1 := C7_system_lookup solSunState 1 1 _ rfl
  have h0 := C7_system_lookup solSunState 1 0 _ rfl
  exact ⟨h1.2.1 (by decide) 0 rfl, h0.1 rfl⟩

/-- C10: `System.subAssign` never mutates the inserted child: the child
object (when distinct from the System) is bit-for-bit unchanged, and no
object anywhere in the heap has its `parent` or `bodyRank` altered; by
contrast `Star.subAssign` sets the child's `parent` to the Star, so a child
forwarded onward into a System keeps the intermediate Star as its `parent`
reference. -/
theorem C10_system_subAssign_no_child_mutation (s : State) (st c : ObjId) (o co : Obj)
    (hst : s.get st = some o) (_hk : o.kind = Kind.star) (hc : s.get c = some co)
    (hic : st ≠ c) :
    (∀ i, i ≠ c → (systemSubAssign s i c).get c = s.get c) ∧
    (∀ i j, ((systemSubAssign s i c).get j).map Obj.parent = (s.get j).map Obj.parent) ∧
    (∀ i j, ((systemSubAssign s i c).get j).map Obj.bodyRank
      = (s.get j).map Obj.bodyRank) ∧
    ((starSubAssign s st c).get c).map Obj.parent = some (some st) := by
  refine ⟨fun i hi => systemSubAssign_child_frame s i c (fun h => hi h),
    fun i j => (systemSubAssign_frame s i c j).2.1,
    fun i j => (systemSubAssign_frame s i c j).2.2.1, ?_⟩
  have hlc : c < s.objs.length := State.get_some_lt hc
  have hfr : ∀ q, ((systemSubAssign (assignMut s st c o co) q c).get c).map Obj.parent
      = ((assignMut s st c o co).get c).map Obj.parent :=
    fun q => (systemSubAssign_frame (assignMut s st c o co) q c c).2.1
  rw [starSubAssign_char s st c o co hst hc hic]
  split
  · rw [assignMut_get_c st o co hlc]; rfl
  · split
    · rw [hfr, assignMut_get_c st o co hlc]; rfl
    · rw [assignMut_get_c st o co hlc]; rfl

/-- Witness for C10 on the `Sol`/`Sun`/`Earth` heap with a rogue minor as
the child. -/
theorem C10_witness :
    (systemSubAssign moonState 0 3).get 3 = moonState.get 3 ∧
    ((starSubAssign moonState 1 3).get 3).map Obj.parent = some (some 1) := by
  have h := C10_system_subAssign_no_child_mutation moonState 1 3 _ _ rfl rfl rfl (by decide)
  exact ⟨h.1 0 (by decide), h.2.2.2⟩

/-- C4 (amended): `st.subAssign(c)` on a Star `st` (child distinct from the
star) appends `c` to `st.orbitals`, sets `c.parent = st`, sets
`c.bodyRank = st.bodyRank + 1`, and then calls `st.parent.subAssign(c)` if
and only if `st.parent` exists and is a System (otherwise the call stops
silently after the three mutations).  The forwarded call produces dual
membership — `c` in the System's `bodies` — exactly when the child's new
rank `st.bodyRank + 1` exceeds the System's rank; with equal ranks `c`
joins `heads` instead, and with a smaller rank the System is left
untouched. -/
theorem C4_star_subAssign_forwarding (s : State) (i c : ObjId) (o co : Obj)
    (hi : s.get i = some o) (_hk : o.kind = Kind.star) (hc : s.get c = some co)
    (hic : i ≠ c) :
    ((starSubAssign s i c).get i).map Obj.orbitals = some (o.orbitals ++ [c]) ∧
    ((starSubAssign s i c).get c).map Obj.parent = some (some i) ∧
    ((starSubAssign s i c).get c).map Obj.bodyRank = some (o.bodyRank + 1) ∧
    (starSubAssign s i c =
      match o.parent with
      | none => assignMut s i c o co
      | some p =>
        match ((assignMut s i c o co).get p).map Obj.kind with
        | some Kind.system => systemSubAssign (assignMut s i c o co) p c
        | _ => assignMut s i c o co) ∧
    (∀ p po, o.parent = some p → p ≠ c → s.get p = some po → po.kind = Kind.system →
      (o.bodyRank + 1 > po.bodyRank →
        ∃ po2, (starSubAssign s i c).get p = some po2 ∧
          po2.bodies = po.bodies ++ [c] ∧ po2.heads = po.heads) ∧
      (o.bodyRank + 1 = po.bodyRank →
        ∃ po2, (starSubAssign s i c).get p = some po2 ∧
          po2.heads = po.heads ++ [c] ∧ po2.bodies = po.bodies) ∧
      (o.bodyRank + 1 < po.bodyRank → (starSubAssign s i c).get p = some po)) := by
  have hli : i < s.objs.length := State.get_some_lt hi
  have hlc : c < s.objs.length := State.get_some_lt hc
  have hchar := starSubAssign_char s i c o co hi hc hic
  have hfrp : ∀ q (f : Obj → Option ObjId),
      (f = Obj.parent) →
      ((systemSubAssign (assignMut s i c o co) q c).get c).map f
        = ((assignMut s i c o co).get c).map f := by
    intro q f hf
    subst hf
    exact (systemSubAssign_frame (assignMut s i c o co) q c c).2.1
  refine ⟨?_, ?_, ?_, hchar, ?_⟩
  · rw [hchar]
    split
    · rw [assignMut_get_i c o co hli hic]; rfl
    · split
      · rw [(systemSubAssign_frame (assignMut s i c o co) _ c i).2.2.2.1,
          assignMut_get_i c o co hli hic]
        rfl
      · rw [assignMut_get_i c o co hli hic]; rfl
  · rw [hchar]
    split
    · rw [assignMut_get_c i o co hlc]; rfl
    · split
      · rw [hfrp _ Obj.parent rfl, assignMut_get_c i o co hlc]; rfl
      · rw [assignMut_get_c i o co hlc]; rfl
  · rw [hchar]
    split
    · rw [assignMut_get_c i o co hlc]; rfl
    · split
      · rw [(systemSubAssign_frame (assignMut s i c o co) _ c c).2.2.1,
          assignMut_get_c i o co hlc]
        rfl
      · rw [assignMut_get_c i o co hlc]; rfl
  · intro p po hop hpc hp hpk
    have hpi : p ≠ i := by
      intro h
      subst h
      rw [hi] at hp
      have hoe : o = po := Option.some.inj hp
      rw [← hoe, _hk] at hpk
      exact Kind.noConfusion hpk
    have hgp : (assignMut s i c o co).get p = s.get p :=
      assignMut_get_other o co hpi hpc
    have hfwd : starSubAssign s i c = systemSubAssign (assignMut s i c o co) p c := by
      have hsc : ((assignMut s i c o co).get p).map Obj.kind = some Kind.system := by
        rw [hgp, hp, Option.map_some', hpk]
      rw [hop] at hchar
      simp only [hsc] at hchar
      exact hchar
    have hgc : (assignMut s i c o co).get c
        = some { co with parent := some i, bodyRank := o.bodyRank + 1 } :=
      assignMut_get_c i o co hlc
    have hgp2 : (assignMut s i c o co).get p = some po := by rw [hgp, hp]
    refine ⟨?_, ?_, ?_⟩
    · intro hr
      rw [hfwd]
      unfold systemSubAssign
      simp only [hgp2, hgc]
      rw [if_pos (by omega)]
      exact ⟨_, State.get_set_of_get hgp2 _, rfl, rfl⟩
    · intro hr
      rw [hfwd]
      unfold systemSubAssign
      simp only [hgp2, hgc]
      rw [if_neg (by omega), if_pos (by omega)]
      exact ⟨_, State.get_set_of_get hgp2 _, rfl, rfl⟩
    · intro hr
      rw [hfwd]
      unfold systemSubAssign
      simp only [hgp2, hgc]
      rw [if_neg (by omega), if_neg (by omega)]
      exact hgp2

/-- Counterexample to C4 as stated: under `System("Deep", rank=4)`, the Star
`a` has the System as parent, so `Star.subAssign` does forward
`Planet("p", a)`; yet the System accepts it into neither `bodies` nor
`heads` (rank 3 is below rank 4), so no dual membership arises. -/
theorem C4_counterexample :
    (rank4State.get 1).map Obj.kind = some Kind.star ∧
    (rank4State.get 1).map Obj.parent = some (some 0) ∧
    (rank4State.get 0).map Obj.kind = some Kind.system ∧
    (rank4State.get 0).map Obj.bodyRank = some 4 ∧
    (rank4FinalState.get 1).map Obj.orbitals = some [2] ∧
    (rank4FinalState.get 2).map Obj.parent = some (some 1) ∧
    (rank4FinalState.get 2).map Obj.bodyRank = some 3 ∧
    (rank4FinalState.get 0).map Obj.bodies = some [] ∧
    (rank4FinalState.get 0).map Obj.heads = some [] :=
  ⟨rfl, rfl, rfl, rfl, rfl, rfl, rfl, rfl, rfl⟩

/-- Witness for C4 on the `Sol`/`Sun`/`Earth` heap with the rogue minor as
child of the Sun: mutation triple plus forwarding into `Sol.bodies`. -/
theorem C4_witness :
    ((starSubAssign moonState 1 3).get 3).map Obj.bodyRank = some 3 ∧
    ((starSubAssign moonState 1 3).get 3).map Obj.parent = some (some 1) ∧
    ((starSubAssign moonState 1 3).get 0).map Obj.bodies = some [2, 3] := by
  have h := C4_star_subAssign_forwarding moonState 1 3 _ _ rfl rfl rfl (by decide)
  have hm := (h.2.2.2.2 0 _ rfl (by decide) rfl rfl).1 (by decide)
  obtain ⟨po2, h1, h2, h3⟩ := hm
  refine ⟨h.2.2.1, h.2.1, ?_⟩
  rw [h1, Option.map_some', h2]
  rfl

theorem State.get_alloc_ne {s : State} {j : ObjId} (h : j ≠ s.objs.length) (o : Obj) :
    (s.alloc o).1.get j = s.get j := by
  rcases Nat.lt_or_ge j s.objs.length with hlt | hge
  · exact State.get_alloc_lt hlt o
  · have hgt : s.objs.length < j := Nat.lt_of_le_of_ne hge (fun he => h he.symm)
    have h1 : (s.alloc o).1.get j = none := by
      rw [State.get, List.getElem?_eq_none]
      simp [State.alloc]
      omega
    have h2 : s.get j = none := by
      rw [State.get, List.getElem?_eq_none (Nat.le_of_lt hgt)]
    rw [h1, h2]

/-- Any per-object observation that `System.subAssign` cannot change can be
read through `Star.subAssign`/`Belt.subAssign` directly on the
three-mutation heap. -/
theorem starSubAssign_get_map {α : Type} (s : State) (i c : ObjId) (o co : Obj)
    (hi : s.get i = some o) (hc : s.get c = some co) (hic : i ≠ c) (j : ObjId)
    (f : Obj → α)
    (hpres : ∀ q, ((systemSubAssign (assignMut s i c o co) q c).get j).map f
      = ((assignMut s i c o co).get j).map f) :
    ((starSubAssign s i c).get j).map f = ((assignMut s i c o co).get j).map f := by
  rw [starSubAssign_char s i c o co hi hc hic]
  split
  · rfl
  · split
    · exact hpres _
    · rfl

/-- The `Body.subAssign` analogue of `starSubAssign_get_map`. -/
theorem bodySubAssign_get_map {α : Type} (s : State) (fuel : Nat) (i c : ObjId)
    (o co : Obj) (hi : s.get i = some o) (hc : s.get c = some co) (hic : i ≠ c)
    (j : ObjId) (f : Obj → α)
    (hpres : ∀ q, ((systemSubAssign (assignMut s i c o co) q c).get j).map f
      = ((assignMut s i c o co).get j).map f) :
    ((bodySubAssign s fuel i c).get j).map f = ((assignMut s i c o co).get j).map f := by
  rw [bodySubAssign_char s fuel i c o co hi hc hic]
  split
  · exact hpres _
  · rfl

theorem assignMut_bodies_heads (s : State) (i c j : ObjId) (o co : Obj)
    (hi : s.get i = some o) (hic : i ≠ c) (hjc : j ≠ c) :
    ((assignMut s i c o co).get j).map Obj.bodies = (s.get j).map Obj.bodies ∧
    ((assignMut s i c o co).get j).map Obj.heads = (s.get j).map Obj.heads := by
  by_cases hji : j = i
  · subst hji
    rw [assignMut_get_i c o co (State.get_some_lt hi) hic, hi]
    exact ⟨rfl, rfl⟩
  · rw [assignMut_get_other o co hji hjc]
    exact ⟨rfl, rfl⟩

/-- Dispatching `subAssign` on a Star, Belt or Planet (generic Body)
container always rewrites the child's `bodyRank` to the container's rank
plus one and the child's `parent` to the container, leaving both objects'
classes alone. -/
theorem subAssign_child_attrs (s : State) (fuel : Nat) (p c : ObjId) (po co : Obj)
    (hp : s.get p = some po) (hc : s.get c = some co) (hpc : p ≠ c)
    (hk : po.kind = Kind.star ∨ po.kind = Kind.belt ∨ po.kind = Kind.planet) :
    ((subAssign s fuel p c).get c).map Obj.bodyRank = some (po.bodyRank + 1) ∧
    ((subAssign s fuel p c).get c).map Obj.parent = some (some p) ∧
    ((subAssign s fuel p c).get c).map Obj.kind = some co.kind ∧
    ((subAssign s fuel p c).get p).map Obj.kind = some po.kind := by
  have hlp : p < s.objs.length := State.get_some_lt hp
  have hlc : c < s.objs.length := State.get_some_lt hc
  have hgc := assignMut_get_c (s := s) (c := c) p po co hlc
  have hgi := assignMut_get_i (s := s) (i := p) c po co hlp hpc
  have hrank : ∀ q, ((systemSubAssign (assignMut s p c po co) q c).get c).map Obj.bodyRank
      = ((assignMut s p c po co).get c).map Obj.bodyRank :=
    fun q => (systemSubAssign_frame (assignMut s p c po co) q c c).2.2.1
  have hpar : ∀ q, ((systemSubAssign (assignMut s p c po co) q c).get c).map Obj.parent
      = ((assignMut s p c po co).get c).map Obj.parent :=
    fun q => (systemSubAssign_frame (assignMut s p c po co) q c c).2.1
  have hkndc : ∀ q, ((systemSubAssign (assignMut s p c po co) q c).get c).map Obj.kind
      = ((assignMut s p c po co).get c).map Obj.kind :=
    fun q => (systemSubAssign_frame (assignMut s p c po co) q c c).1
  have hkndp : ∀ q, ((systemSubAssign (assignMut s p c po co) q c).get p).map Obj.kind
      = ((assignMut s p c po co).get p).map Obj.kind :=
    fun q => (systemSubAssign_frame (assignMut s p c po co) q c p).1
  have hstar : ∀ h2 : (s.get p).map Obj.kind = some po.kind,
      True → -- keep the two dispatch targets uniform below
      ((starSubAssign s p c).get c).map Obj.bodyRank = some (po.bodyRank + 1) ∧
      ((starSubAssign s p c).get c).map Obj.parent = some (some p) ∧
      ((starSubAssign s p c).get c).map Obj.kind = some co.kind ∧
      ((starSubAssign s p c).get p).map Obj.kind = some po.kind := by
    intro _ _
    refine ⟨?_, ?_, ?_, ?_⟩
    · rw [starSubAssign_get_map s p c po co hp hc hpc c Obj.bodyRank hrank, hgc]; rfl
    · rw [starSubAssign_get_map s p c po co hp hc hpc c Obj.parent hpar, hgc]; rfl
    · rw [starSubAssign_get_map s p c po co hp hc hpc c Obj.kind hkndc, hgc]; rfl
    · rw [starSubAssign_get_map s p c po co hp hc hpc p Obj.kind hkndp, hgi]; rfl
  have hbody :
      ((bodySubAssign s fuel p c).get c).map Obj.bodyRank = some (po.bodyRank + 1) ∧
      ((bodySubAssign s fuel p c).get c).map Obj.parent = some (some p) ∧
      ((bodySubAssign s fuel p c).get c).map Obj.kind = some co.kind ∧
      ((bodySubAssign s fuel p c).get p).map Obj.kind = some po.kind := by
    refine ⟨?_, ?_, ?_, ?_⟩
    · rw [bodySubAssign_get_map s fuel p c po co hp hc hpc c Obj.bodyRank hrank, hgc]; rfl
    · rw [bodySubAssign_get_map s fuel p c po co hp hc hpc c Obj.parent hpar, hgc]; rfl
    · rw [bodySubAssign_get_map s fuel p c po co hp hc hpc c Obj.kind hkndc, hgc]; rfl
    · rw [bodySubAssign_get_map s fuel p c po co hp hc hpc p Obj.kind hkndp, hgi]; rfl
  have hdmap : (s.get p).map Obj.kind = some po.kind := by rw [hp]; rfl
  rcases hk with hk1 | hk1 | hk1
  · have hd : subAssign s fuel p c = starSubAssign s p c := by
      unfold subAssign
      rw [hp, Option.map_some', hk1]
    rw [hd]; exact hstar hdmap trivial
  · have hd : subAssign s fuel p c = beltSubAssign s p c := by
      unfold subAssign
      rw [hp, Option.map_some', hk1]
    rw [hd]; exact hstar hdmap trivial
  · have hd : subAssign s fuel p c = bodySubAssign s fuel p c := by
      unfold subAssign
      rw [hp, Option.map_some', hk1]
    rw [hd]; exact hbody

/-- C2 (amended): a generic Body container (`Body.subAssign`, inherited by
`Planet`) forwards the child to the System located by `system()` over the
WHOLE ancestor chain, and the forwarded child lands in that System's flat
`bodies` list when its new rank exceeds the System's rank; a Belt, however,
does NOT use `system()`: like a Star it forwards only when its IMMEDIATE
parent is a System, so a Belt sitting below a Star or Planet never forwards
even though `system()` would find the enclosing System. -/
theorem C2_body_belt_forwarding (s : State) (fuel : Nat) (i c : ObjId) (o co : Obj)
    (hi : s.get i = some o) (hc : s.get c = some co) (hic : i ≠ c) :
    (o.kind = Kind.planet →
      bodySubAssign s fuel i c =
        match systemF (assignMut s i c o co) fuel i with
        | some (some p) => systemSubAssign (assignMut s i c o co) p c
        | _ => assignMut s i c o co) ∧
    (∀ p po, systemF (assignMut s i c o co) fuel i = some (some p) → p ≠ i → p ≠ c →
      s.get p = some po →
      (o.bodyRank + 1 > po.bodyRank →
        ∃ po2, (bodySubAssign s fuel i c).get p = some po2 ∧
          po2.bodies = po.bodies ++ [c]) ∧
      (o.bodyRank + 1 < po.bodyRank → (bodySubAssign s fuel i c).get p = some po)) ∧
    (o.kind = Kind.belt →
      beltSubAssign s i c =
        match o.parent with
        | none => assignMut s i c o co
        | some p =>
          match ((assignMut s i c o co).get p).map Obj.kind with
          | some Kind.system => systemSubAssign (assignMut s i c o co) p c
          | _ => assignMut s i c o co) := by
  have hlc : c < s.objs.length := State.get_some_lt hc
  refine ⟨fun _ => bodySubAssign_char s fuel i c o co hi hc hic, ?_,
    fun _ => starSubAssign_char s i c o co hi hc hic⟩
  intro p po hsf hpi hpc hp
  have hchar := bodySubAssign_char s fuel i c o co hi hc hic
  simp only [hsf] at hchar
  have hgp2 : (assignMut s i c o co).get p = some po := by
    rw [assignMut_get_other o co hpi hpc, hp]
  have hgc : (assignMut s i c o co).get c
      = some { co with parent := some i, bodyRank := o.bodyRank + 1 } :=
    assignMut_get_c i o co hlc
  constructor
  · intro hr
    rw [hchar]
    unfold systemSubAssign
    simp only [hgp2, hgc]
    rw [if_pos (by omega)]
    exact ⟨_, State.get_set_of_get hgp2 _, rfl⟩
  · intro hr
    rw [hchar]
    unfold systemSubAssign
    simp only [hgp2, hgc]
    rw [if_neg (by omega), if_neg (by omega)]
    exact hgp2

/-- Counterexample to C2 as stated: the Belt `Frost` (id 2) sits under the
Star `Sun` inside the System `Sol`, and `system()` from the Belt does reach
`Sol` (id 0); yet inserting `Minor("Pallas")` through the Belt leaves
`Sol.bodies` at `[2]` — the Minor (id 3) is accepted into the Belt's
`orbitals` but never forwarded into the System's flat list, because
`Belt.subAssign` tests only the immediate parent's `bodyType`. -/
theorem C2_counterexample :
    (beltUnderStarState.get 2).map Obj.kind = some Kind.belt ∧
    systemF beltUnderStarState 9 2 = some (some 0) ∧
    (c2finalState.get 2).map Obj.orbitals = some [3] ∧
    (c2finalState.get 3).map Obj.parent = some (some 2) ∧
    (c2finalState.get 3).map Obj.bodyRank = some 4 ∧
    (c2finalState.get 0).map Obj.bodies = some [2] ∧
    (c2finalState.get 0).map Obj.heads = some [1] :=
  ⟨rfl, rfl, rfl, rfl, rfl, rfl, rfl⟩

/-- Witness for C2: `Earth` (a Planet, id 2) forwarding a rogue minor
(id 3) lands it in `Sol.bodies`. -/
theorem C2_witness :
    ((bodySubAssign moonState 9 2 3).get 0).map Obj.bodies = some [2, 3] := by
  have h := C2_body_belt_forwarding moonState 9 2 3 _ _ rfl rfl (by decide)
  obtain ⟨po2, h1, h2⟩ := (h.2.1 0 _ rfl (by decide) (by decide) rfl).1 (by decide)
  rw [h1, Option.map_some', h2]
  rfl

/-- When no branch of the `bodyType == "System"` test can fire,
`Star.subAssign`/`Belt.subAssign` is exactly the three-mutation heap. -/
theorem starSubAssign_no_fwd (s : State) (i c : ObjId) (o co : Obj)
    (hi : s.get i = some o) (hc : s.get c = some co) (hic : i ≠ c)
    (hnf : ∀ p, o.parent = some p →
      ((assignMut s i c o co).get p).map Obj.kind ≠ some Kind.system) :
    starSubAssign s i c = assignMut s i c o co := by
  rw [starSubAssign_char s i c o co hi hc hic]
  split
  · rfl
  · split
    · rename_i x1 p hp1 x2 hp2
      exact absurd hp2 (hnf p hp1)
    · rfl

/-- C5 (amended): `Minor.subAssign` itself is a guaranteed no-op (its first
statement calls a nonexistent `append`), but constructing
`Minor(name, someBelt)` goes through `Belt.subAssign`, which works: the
Minor is attached to the Belt with rank `belt.bodyRank + 1`, and the Belt
forwards it exactly when its immediate parent is a System — the Minor then
joins the System's `bodies` when `belt.bodyRank + 1` exceeds the System's
rank, joins `heads` when the ranks are equal, and is registered nowhere
when its rank is smaller; only when the Belt sits deeper — under a Star or
Planet, or detached — is no System list ever touched. -/
theorem C5_minor_construction_under_belt (s : State) (fuel : Nat) (name : String)
    (b : ObjId) (bo : Obj) (hb : s.get b = some bo) (hk : bo.kind = Kind.belt) :
    (∀ x y : ObjId, minorSubAssign s x y = s) ∧
    ((minorInit s fuel name (some b)).1.get (minorInit s fuel name (some b)).2).map
        Obj.parent = some (some b) ∧
    ((minorInit s fuel name (some b)).1.get (minorInit s fuel name (some b)).2).map
        Obj.bodyRank = some (bo.bodyRank + 1) ∧
    (∀ p po, bo.parent = some p → p ≠ b → s.get p = some po → po.kind = Kind.system →
      (bo.bodyRank + 1 > po.bodyRank →
        ∃ po2, (minorInit s fuel name (some b)).1.get p = some po2 ∧
          po2.bodies = po.bodies ++ [(minorInit s fuel name (some b)).2] ∧
          po2.heads = po.heads) ∧
      (bo.bodyRank + 1 = po.bodyRank →
        ∃ po2, (minorInit s fuel name (some b)).1.get p = some po2 ∧
          po2.heads = po.heads ++ [(minorInit s fuel name (some b)).2] ∧
          po2.bodies = po.bodies) ∧
      (bo.bodyRank + 1 < po.bodyRank →
        (minorInit s fuel name (some b)).1.get p = some po)) ∧
    ((∀ p po, bo.parent = some p → s.get p = some po → po.kind ≠ Kind.system) →
      ∀ j, j ≠ (minorInit s fuel name (some b)).2 →
        ((minorInit s fuel name (some b)).1.get j).map Obj.bodies
          = (s.get j).map Obj.bodies ∧
        ((minorInit s fuel name (some b)).1.get j).map Obj.heads
          = (s.get j).map Obj.heads) := by
  have hlb : b < s.objs.length := State.get_some_lt hb
  have hbi : b ≠ s.objs.length := Nat.ne_of_lt hlb
  have hred : minorInit s fuel name (some b)
      = (subAssign (s.alloc (newObj Kind.minor name (some b) 4)).1 fuel b s.objs.length,
         s.objs.length) := rfl
  have hab : (s.alloc (newObj Kind.minor name (some b) 4)).1.get b = some bo := by
    rw [State.get_alloc_lt hlb]; exact hb
  have hai : (s.alloc (newObj Kind.minor name (some b) 4)).1.get s.objs.length
      = some (newObj Kind.minor name (some b) 4) := State.get_alloc_self s _
  have hlen : s.objs.length < (s.alloc (newObj Kind.minor name (some b) 4)).1.objs.length := by
    simp [State.alloc]
  have hlb2 : b < (s.alloc (newObj Kind.minor name (some b) 4)).1.objs.length :=
    State.get_some_lt hab
  have hd : subAssign (s.alloc (newObj Kind.minor name (some b) 4)).1 fuel b s.objs.length
      = starSubAssign (s.alloc (newObj Kind.minor name (some b) 4)).1 b s.objs.length := by
    unfold subAssign
    rw [hab, Option.map_some', hk]
    rfl
  have hgc : (assignMut (s.alloc (newObj Kind.minor name (some b) 4)).1 b s.objs.length
        bo (newObj Kind.minor name (some b) 4)).get s.objs.length
      = some { newObj Kind.minor name (some b) 4 with
          parent := some b, bodyRank := bo.bodyRank + 1 } :=
    assignMut_get_c b bo _ hlen
  refine ⟨fun x y => rfl, ?_, ?_, ?_, ?_⟩
  · rw [hred]
    simp only [hd]
    rw [starSubAssign_get_map _ b s.objs.length bo _ hab hai hbi s.objs.length Obj.parent
      (fun q => (systemSubAssign_frame _ q s.objs.length s.objs.length).2.1), hgc]
    rfl
  · rw [hred]
    simp only [hd]
    rw [starSubAssign_get_map _ b s.objs.length bo _ hab hai hbi s.objs.length Obj.bodyRank
      (fun q => (systemSubAssign_frame _ q s.objs.length s.objs.length).2.2.1), hgc]
    rfl
  · intro p po hop hpb hp hpk
    have hlp : p < s.objs.length := State.get_some_lt hp
    have hpi : p ≠ s.objs.length := Nat.ne_of_lt hlp
    have hgp2 : (assignMut (s.alloc (newObj Kind.minor name (some b) 4)).1 b s.objs.length
          bo (newObj Kind.minor name (some b) 4)).get p = some po := by
      rw [assignMut_get_other bo _ hpb hpi, State.get_alloc_lt hlp, hp]
    have hchar := starSubAssign_char (s.alloc (newObj Kind.minor name (some b) 4)).1
      b s.objs.length bo (newObj Kind.minor name (some b) 4) hab hai hbi
    rw [hop] at hchar
    have hsc : ((assignMut (s.alloc (newObj Kind.minor name (some b) 4)).1 b s.objs.length
          bo (newObj Kind.minor name (some b) 4)).get p).map Obj.kind
        = some Kind.system := by
      rw [hgp2, Option.map_some', hpk]
    simp only [hsc] at hchar
    refine ⟨?_, ?_, ?_⟩
    · intro hr
      rw [hred]
      simp only [hd]
      rw [hchar]
      unfold systemSubAssign
      simp only [hgp2, hgc]
      rw [if_pos (by omega)]
      exact ⟨_, State.get_set_of_get hgp2 _, rfl, rfl⟩
    · intro hr
      rw [hred]
      simp only [hd]
      rw [hchar]
      unfold systemSubAssign
      simp only [hgp2, hgc]
      rw [if_neg (by omega), if_pos (by omega)]
      exact ⟨_, State.get_set_of_get hgp2 _, rfl, rfl⟩
    · intro hr
      rw [hred]
      simp only [hd]
      rw [hchar]
      unfold systemSubAssign
      simp only [hgp2, hgc]
      rw [if_neg (by omega), if_neg (by omega)]
      exact hgp2
  · intro hns j hjne
    have hjn : j ≠ s.objs.length := hjne
    have hnofwd : starSubAssign (s.alloc (newObj Kind.minor name (some b) 4)).1 b
          s.objs.length
        = assignMut (s.alloc (newObj Kind.minor name (some b) 4)).1 b s.objs.length
            bo (newObj Kind.minor name (some b) 4) := by
      refine starSubAssign_no_fwd _ b s.objs.length bo _ hab hai hbi ?_
      intro p hop
      by_cases hpl : p = s.objs.length
      · subst hpl
        rw [hgc]
        simp [newObj]
      · by_cases hpb : p = b
        · subst hpb
          rw [assignMut_get_i s.objs.length bo _ hlb2 hbi]
          simp [hk]
        · rw [assignMut_get_other bo _ hpb hpl, State.get_alloc_ne hpl]
          cases hsp : s.get p with
          | none => simp
          | some po =>
            simp only [Option.map_some', ne_eq, Option.some.injEq]
            exact hns p po hop hsp
    rw [hred]
    simp only [hd]
    rw [hnofwd]
    have hh := assignMut_bodies_heads (s.alloc (newObj Kind.minor name (some b) 4)).1
      b s.objs.length j bo (newObj Kind.minor name (some b) 4) hab hbi hjn
    rw [hh.1, hh.2, State.get_alloc_ne hjn]
    exact ⟨rfl, rfl⟩

/-- Counterexample to C5 as stated: `Minor("Vesta", Main)` where the Belt
`Main` (id 1) sits directly under `System("Sol")` (id 0) DOES get added to
the enclosing System's `bodies` list: `Sol.bodies` ends as `[1, 2]` with
Vesta = id 2 present. -/
theorem C5_counterexample :
    (beltUnderSystemState.get 1).map Obj.kind = some Kind.belt ∧
    (beltUnderSystemState.get 1).map Obj.parent = some (some 0) ∧
    (c5finalState.get 2).map Obj.name = some "Vesta" ∧
    (c5finalState.get 2).map Obj.kind = some Kind.minor ∧
    (c5finalState.get 0).map Obj.kind = some Kind.system ∧
    (c5finalState.get 0).map Obj.bodies = some [1, 2] :=
  ⟨rfl, rfl, rfl, rfl, rfl, rfl⟩

/-- Witness for C5: Vesta under the System-held Belt reaches `Sol.bodies`;
under the rank-4 System's Belt the Minor joins `heads` instead; and
`Minor.subAssign` is a no-op. -/
theorem C5_witness :
    ((minorInit beltUnderSystemState 9 "Vesta" (some 1)).1.get 0).map Obj.bodies
      = some [1, 2] ∧
    ((minorInit beltUnderRank4State 9 "V" (some 1)).1.get 0).map Obj.heads
      = some [2] ∧
    minorSubAssign beltUnderSystemState 0 1 = beltUnderSystemState := by
  have h := C5_minor_construction_under_belt beltUnderSystemState 9 "Vesta" 1 _ rfl rfl
  have h4 := C5_minor_construction_under_belt beltUnderRank4State 9 "V" 1 _ rfl rfl
  obtain ⟨po2, h1, h2, h3⟩ := (h.2.2.2.1 0 _ rfl (by decide) rfl rfl).1 (by decide)
  obtain ⟨po4, g1, g2, g3⟩ := (h4.2.2.2.1 0 _ rfl (by decide) rfl rfl).2.1 (by decide)
  refine ⟨?_, ?_, h.1 0 1⟩
  · rw [h1, Option.map_some', h2]
    rfl
  · rw [g1, Option.map_some', g2]
    rfl

/-- A completed `Belt.__init__` returns the fresh id, and the final
`bodySubtype` write does not disturb the child's `bodyRank` as produced by
the `parent.subAssign(self)` stage. -/
theorem beltInit_some_rank (s : State) (fuel : Nat) (name : String) (pa : Option ObjId)
    (rank : Int) (res : State × ObjId) (h : beltInit s fuel name pa rank = some res) :
    res.2 = s.objs.length ∧
    (res.1.get res.2).map Obj.bodyRank
      = ((initAssign (s.alloc (newObj Kind.belt name pa rank)).1 fuel pa
          s.objs.length).get s.objs.length).map Obj.bodyRank := by
  simp only [beltInit] at h
  split at h
  · exact Option.noConfusion h
  · split at h
    · exact Option.noConfusion h
    · split at h
      · exact Option.noConfusion h
      · split at h
        · exact Option.noConfusion h
        · rename_i ob hob
          have hres : res = ((initAssign (s.alloc (newObj Kind.belt name pa rank)).1 fuel pa
              (s.alloc (newObj Kind.belt name pa rank)).2).set
                (s.alloc (newObj Kind.belt name pa rank)).2 _, _) := (Option.some.inj h).symm
          subst hres
          refine ⟨rfl, ?_⟩
          rw [State.get_set_of_get hob,
            show (initAssign (s.alloc (newObj Kind.belt name pa rank)).1 fuel pa
                s.objs.length).get s.objs.length = some ob from hob]
          rfl

/-- C6: a body of any class (Star, Planet, System, Minor, or Belt when its
construction completes) constructed with a non-System parent `P` that is a
Star, a Belt or a generic Body/Planet ends construction with
`bodyRank = P.bodyRank + 1`; constructor-chosen ranks (Star's 2, Planet's 3,
Minor's 4, the `rank` arguments of System and Belt) are overwritten by the
parent's `subAssign`. -/
theorem C6_constructed_child_rank (s : State) (fuel : Nat) (name : String) (p : ObjId)
    (po : Obj) (rank : Int) (hp : s.get p = some po)
    (hk : po.kind = Kind.star ∨ po.kind = Kind.belt ∨ po.kind = Kind.planet) :
    ((starInit s fuel name (some p)).1.get (starInit s fuel name (some p)).2).map
        Obj.bodyRank = some (po.bodyRank + 1) ∧
    ((planetInit s fuel name (some p)).1.get (planetInit s fuel name (some p)).2).map
        Obj.bodyRank = some (po.bodyRank + 1) ∧
    ((systemInit s fuel name (some p) rank).1.get
        (systemInit s fuel name (some p) rank).2).map Obj.bodyRank
      = some (po.bodyRank + 1) ∧
    ((minorInit s fuel name (some p)).1.get (minorInit s fuel name (some p)).2).map
        Obj.bodyRank = some (po.bodyRank + 1) ∧
    (∀ res, beltInit s fuel name (some p) rank = some res →
      (res.1.get res.2).map Obj.bodyRank = some (po.bodyRank + 1)) := by
  have hlp : p < s.objs.length := State.get_some_lt hp
  have hpi : p ≠ s.objs.length := Nat.ne_of_lt hlp
  have hgen : ∀ (k : Kind) (r : Int),
      ((subAssign (s.alloc (newObj k name (some p) r)).1 fuel p s.objs.length).get
        s.objs.length).map Obj.bodyRank = some (po.bodyRank + 1) := by
    intro k r
    have hap : (s.alloc (newObj k name (some p) r)).1.get p = some po := by
      rw [State.get_alloc_lt hlp]; exact hp
    have hai : (s.alloc (newObj k name (some p) r)).1.get s.objs.length
        = some (newObj k name (some p) r) := State.get_alloc_self s _
    exact (subAssign_child_attrs (s.alloc (newObj k name (some p) r)).1 fuel p
      s.objs.length po (newObj k name (some p) r) hap hai hpi hk).1
  refine ⟨hgen Kind.star 2, hgen Kind.planet 3, hgen Kind.system rank,
    hgen Kind.minor 4, ?_⟩
  intro res hres
  have hinv := beltInit_some_rank s fuel name (some p) rank res hres
  rw [hinv.2]
  exact hgen Kind.belt rank

/-- Witness for C6 under the Star `Sun` (rank 2): every constructor ends
with the child at rank 3, whatever rank argument was requested. -/
theorem C6_witness :
    ((starInit solSunState 9 "w" (some 1)).1.get
        (starInit solSunState 9 "w" (some 1)).2).map Obj.bodyRank = some 3 ∧
    ((planetInit solSunState 9 "w" (some 1)).1.get
        (planetInit solSunState 9 "w" (some 1)).2).map Obj.bodyRank = some 3 ∧
    ((systemInit solSunState 9 "w" (some 1) 7).1.get
        (systemInit solSunState 9 "w" (some 1) 7).2).map Obj.bodyRank = some 3 ∧
    ((minorInit solSunState 9 "w" (some 1)).1.get
        (minorInit solSunState 9 "w" (some 1)).2).map Obj.bodyRank = some 3 ∧
    (((beltInit solSunState 9 "w" (some 1) 7).getD (⟨[]⟩, 0)).1.get
        ((beltInit solSunState 9 "w" (some 1) 7).getD (⟨[]⟩, 0)).2).map Obj.bodyRank
      = some 3 := by
  have h := C6_constructed_child_rank solSunState 9 "w" 1 _ 7 rfl (Or.inl rfl)
  exact ⟨h.1, h.2.1, h.2.2.1, h.2.2.2.1,
    h.2.2.2.2 ((beltInit solSunState 9 "w" (some 1) 7).getD (⟨[]⟩, 0)) rfl⟩
